import Mathlib

/-!
Shallow Lean embedding of the FactChecker claim-verification pipeline
(`checker.py`, `subjective_claim.py`, `search_results.py`,
`break_statement.py`, `main.py`).  External collaborators (the OpenAI /
Mistral generation backends and the Tavily search API) are modelled as
oracle functions `String → String`; Python module-level globals are
modelled by explicit state passing.  Python `str` methods are modelled by
executable functions over `List Char` (ASCII-faithful).
-/

/- ## Python string primitives -/

/-- Python whitespace characters (as used by `str.strip()` / `str.split()`):
space, tab, LF, VT, FF, CR. -/
def isPySpace (c : Char) : Bool :=
  c.toNat == 32 || c.toNat == 9 || c.toNat == 10 || c.toNat == 13 ||
  c.toNat == 11 || c.toNat == 12

/-- ASCII lower-casing of one character, as `str.lower()` does per character. -/
def lowerChar (c : Char) : Char :=
  if 65 ≤ c.toNat && c.toNat ≤ 90 then Char.ofNat (c.toNat + 32) else c

/-- Drop characters satisfying `p` from both ends of a list
(the core of Python `str.strip`). -/
def stripList (p : Char → Bool) (l : List Char) : List Char :=
  (((l.dropWhile p).reverse).dropWhile p).reverse

/-- Python `str.strip()` (no arguments): trim whitespace from both ends. -/
def pyStrip (s : String) : String :=
  ⟨stripList isPySpace s.data⟩

/-- Python `str.lower()` (ASCII). -/
def pyLower (s : String) : String :=
  ⟨s.data.map lowerChar⟩

/-- Helper for `pySplit`: split on runs of whitespace, discarding empties,
with an accumulator of the current (reversed) token. -/
def pySplitAux : List Char → List Char → List String
  | [], acc => if acc.isEmpty then [] else [⟨acc.reverse⟩]
  | c :: rest, acc =>
    if isPySpace c then
      if acc.isEmpty then pySplitAux rest [] else ⟨acc.reverse⟩ :: pySplitAux rest []
    else pySplitAux rest (c :: acc)

/-- Python `str.split()` (no arguments): split on whitespace runs,
no empty tokens. -/
def pySplit (s : String) : List String :=
  pySplitAux s.data []

/-- Helper for `splitLines`: split a character list on newline characters. -/
def splitNlAux : List Char → List Char → List String
  | [], acc => [⟨acc.reverse⟩]
  | c :: rest, acc =>
    if c = '\n' then ⟨acc.reverse⟩ :: splitNlAux rest []
    else splitNlAux rest (c :: acc)

/-- Python `str.split("\n")`. -/
def splitLines (s : String) : List String :=
  splitNlAux s.data []

/-- Python `str.strip("- ")`: drop leading/trailing dashes and spaces. -/
def stripDash (s : String) : String :=
  ⟨stripList (fun c => c = '-' || c = ' ') s.data⟩

/-- Is `p` a (character-exact) prefix of `s`? -/
def charListPre : List Char → List Char → Bool
  | [], _ => true
  | _ :: _, [] => false
  | c :: p, d :: s => c = d && charListPre p s

/-- Does the character list `p` occur as a contiguous sublist of `s`? -/
def strContainsAux (p : List Char) : List Char → Bool
  | [] => charListPre p []
  | c :: rest => charListPre p (c :: rest) || strContainsAux p rest

/-- Does string `sub` occur as a substring of `s`? -/
def strContains (s sub : String) : Bool :=
  strContainsAux sub.data s.data

/- ## subjective_claim.py -/

/-- `get_subjective_patterns` (`subjective_claim.py` lines 11-24).  Each
source pattern is `\b(w1|w2|...)\b` searched case-insensitively and
unanchored; it is modelled as the list of its alternation branches, each to
be matched with word boundaries on both sides. -/
def get_subjective_patterns : List (List String) :=
  [ ["i think", "i believe", "i feel", "i guess", "i suppose", "i assume"],
    ["in my opinion", "in my view", "personally", "to me"],
    ["it seems", "it appears", "it looks like", "it sounds like"],
    ["probably", "maybe", "perhaps", "possibly", "likely", "unlikely"],
    ["clearly", "obviously", "undoubtedly", "certainly", "definitely"],
    ["surprisingly", "unfortunately", "fortunately", "sadly", "thankfully"],
    ["amazing", "incredible", "terrible", "awful", "wonderful", "fantastic"],
    ["very", "extremely", "incredibly", "absolutely", "completely", "totally"],
    ["always", "never", "all", "every", "none", "nothing", "everything"],
    ["should", "must", "ought to", "need to", "have to"] ]

/-- `get_opinion_words` (`subjective_claim.py` lines 27-30). -/
def get_opinion_words : List String :=
  ["think", "believe", "feel", "guess", "suppose", "assume",
   "opinion", "view", "personally", "probably", "maybe", "perhaps"]

/-- Regex word character (`\w`, ASCII): letter, digit or underscore. -/
def isWordChar (c : Char) : Bool :=
  c.isAlphanum || c = '_'

/-- Case-insensitive prefix match of phrase `p` against `s`; returns the
rest of `s` after the match. -/
def matchPhraseAt : List Char → List Char → Option (List Char)
  | s, [] => some s
  | [], _ :: _ => none
  | c :: s, d :: p =>
    if lowerChar c = lowerChar d then matchPhraseAt s p else none

/-- A `\b` boundary holds after the match: end of string or a non-word
character. -/
def boundaryOkAfter : List Char → Bool
  | [] => true
  | c :: _ => !(isWordChar c)

/-- Does phrase `p` match at the current position of `s` with word
boundaries on both sides?  `prev` is the character just before the current
position (`none` at the start of the string). -/
def wbMatchAt (prev : Option Char) (s p : List Char) : Bool :=
  (match prev with
   | none => true
   | some c => !(isWordChar c)) &&
  (match matchPhraseAt s p with
   | none => false
   | some rest => boundaryOkAfter rest)

/-- Scan all positions of `s` for a boundary-delimited, case-insensitive
occurrence of phrase `p`. -/
def wbSearchAux (p : List Char) : Option Char → List Char → Bool
  | prev, [] => wbMatchAt prev [] p
  | prev, c :: rest => wbMatchAt prev (c :: rest) p || wbSearchAux p (some c) rest

/-- Model of `re.search(r"\b" + phrase + r"\b", statement, re.IGNORECASE)`
for one alternation branch `phrase`. -/
def re_word_search (phrase : String) (statement : String) : Bool :=
  wbSearchAux phrase.data none statement.data

/-- Model of `re.search(pattern, statement, re.IGNORECASE)` for a whole
`\b(w1|...|wk)\b` pattern: some branch matches with boundaries. -/
def pattern_search (phrases : List String) (statement : String) : Bool :=
  phrases.any fun ph => re_word_search ph statement

/-- `detect_subjectivity` (`subjective_claim.py` lines 32-60): the
`if not statement` guard, then the pattern loop (first match returns
`True`), then the opinion-word loop over `statement.lower().split()`. -/
def detect_subjectivity (statement : String) : Bool :=
  if statement == "" then false
  else
    (get_subjective_patterns.any fun pat => pattern_search pat statement) ||
    ((pySplit (pyLower statement)).any fun w => get_opinion_words.contains w)

example : detect_subjectivity "I think the sky is blue" = true := by decide
example : detect_subjectivity "The Earth revolves around the Sun" = false := by decide
example : detect_subjectivity "   " = false := by decide
example : pySplit "  a  bc " = ["a", "bc"] := by decide

/- ## search_results.py -/

/-- Outcome of the HTTP POST inside `tavily_search`: either a JSON body
(rendered as text) or a raised `requests.exceptions.RequestException`. -/
inductive NetResult where
  | ok (data : String)
  | err (msg : String)

/-- `tavily_search` (`search_results.py` lines 18-84): on success returns
the parsed response, on any `RequestException` catches it, prints, and
returns `None` (modelled as `none`). -/
def tavily_search (net : NetResult) : Option String :=
  match net with
  | NetResult.ok data => some data
  | NetResult.err _ => none

/-- How Python's f-string renders the `data` variable inside the judgment
prompt: the response itself on success, the literal text `None` when
`tavily_search` returned `None`. -/
def pyOptionStr (data : Option String) : String :=
  match data with
  | none => "None"
  | some s => s

/-- The judgment prompt (`search_results.py` lines 96-107 and 215-226):
an f-string embedding the retrieved `data` and the `question`. -/
def judge_prompt (data : Option String) (question : String) : String :=
  "\nYou are a precise analyst.\nAnalyze the data below and answer the question strictly with \"Yes\" or \"No\".\n\nData:\n"
  ++ pyOptionStr data
  ++ "\n\nQuestion:\n" ++ question ++ "\n\nAnswer (Yes/No only):\n"

/-- The answer normalization shared by `yes_no_openai` (lines 120-123) and
`yes_no_mistral` (lines 277-280): strip the backend's free text, then
return `"Yes"` exactly when its lower-casing starts with `y`. -/
def normalize_yes_no (response : String) : String :=
  let answer := pyStrip response
  if (pyLower answer).data.headD ' ' = 'y' then "Yes" else "No"

/-- `yes_no_openai` (`search_results.py` lines 86-123): retrieve evidence,
build the prompt, query the remote backend (the oracle `remoteGen`, one
free-text answer per prompt), and normalize. -/
def yes_no_openai (net : NetResult) (remoteGen : String → String)
    (question : String) : String :=
  let data := tavily_search net
  let prompt := judge_prompt data question
  normalize_yes_no (remoteGen prompt)

/-- Handle to a loaded `AutoModelForCausalLM`. -/
structure ModelHandle where
  fromPath : String
deriving DecidableEq

/-- Handle to a loaded `AutoTokenizer`. -/
structure TokHandle where
  fromPath : String
deriving DecidableEq

/-- The pair of module-level globals `_mistral_model`, `_mistral_tokenizer`
(present separately in `search_results.py` lines 14-16 and
`break_statement.py` lines 11-13). -/
structure MistralCache where
  model : Option ModelHandle
  tokenizer : Option TokHandle
deriving DecidableEq

/-- A fresh interpreter state: both globals are `None`. -/
def MistralCache.empty : MistralCache :=
  ⟨none, none⟩

/-- The on-disk / runtime conditions probed by `load_mistral_model`:
whether `models/Mistral-7B-Instruct-v0.3` exists, whether `config.json`
and `tokenizer.json` are present, and whether the tokenizer or model
constructor raises. -/
structure LocalEnv where
  dir_exists : Bool
  config_exists : Bool
  tokenizer_file_exists : Bool
  tok_raises : Bool
  model_raises : Bool
deriving DecidableEq

def mistral_path : String := "models/Mistral-7B-Instruct-v0.3"

/-- `load_mistral_model` (identical in `search_results.py` lines 144-194
and `break_statement.py` lines 75-125), with the module's globals passed
and returned explicitly.  Returns the new globals, the
`(model, tokenizer)` result (both `none` on any failure — the function
catches its own exceptions and never raises), and the number of expensive
`from_pretrained` load attempts performed by this call. -/
def load_mistral_model (env : LocalEnv) (st : MistralCache) :
    MistralCache × (Option ModelHandle × Option TokHandle) × Nat :=
  if st.model.isSome && st.tokenizer.isSome then
    (st, (st.model, st.tokenizer), 0)
  else if !env.dir_exists then
    (st, (none, none), 0)
  else if !env.config_exists || !env.tokenizer_file_exists then
    (st, (none, none), 0)
  else if env.tok_raises then
    (st, (none, none), 1)
  else if env.model_raises then
    ({ st with tokenizer := some ⟨mistral_path⟩ }, (none, none), 1)
  else
    (⟨some ⟨mistral_path⟩, some ⟨mistral_path⟩⟩,
     (some ⟨mistral_path⟩, some ⟨mistral_path⟩), 1)

/-- `yes_no_mistral` (`search_results.py` lines 197-280): load (or reuse)
the local model; if unavailable fall back to `yes_no_openai`; otherwise
retrieve evidence, build the same prompt, generate locally (`localGen`)
and normalize.  Returns the new globals, the answer, and the number of
loads performed. -/
def yes_no_mistral (env : LocalEnv) (net : NetResult)
    (remoteGen localGen : String → String) (question : String)
    (st : MistralCache) : MistralCache × String × Nat :=
  let r := load_mistral_model env st
  match r.2.1 with
  | (some _, some _) =>
    let data := tavily_search net
    let prompt := judge_prompt data question
    (r.1, normalize_yes_no (localGen prompt), r.2.2)
  | _ =>
    (r.1, yes_no_openai net remoteGen question, r.2.2)

/-- `yes_no` (`search_results.py` lines 126-141): dispatch on `use_local`. -/
def yes_no (use_local : Bool) (env : LocalEnv) (net : NetResult)
    (remoteGen localGen : String → String) (question : String)
    (st : MistralCache) : MistralCache × String × Nat :=
  if use_local then yes_no_mistral env net remoteGen localGen question st
  else (st, yes_no_openai net remoteGen question, 0)

/- ## break_statement.py -/

/-- The decomposition user prompt (`break_statement.py` lines 32-37). -/
def decompose_prompt (statement : String) : String :=
  "\nGiven the following factual statement, break it into individual atomic questions that can be independently verified.\n\nStatement: \""
  ++ statement ++ "\"\n\nAtomic questions:"

/-- Question parsing (`break_statement.py` lines 50 and 216):
`[q.strip("- ").strip() for q in result.split("\n") if q.strip()]`. -/
def parse_questions (result : String) : List String :=
  ((splitLines result).filter fun q => !(pyStrip q == "")).map
    fun q => pyStrip (stripDash q)

/-- `decompose_statement_to_questions_openai` (`break_statement.py`
lines 15-51): query the remote backend with the decomposition prompt and
parse its free text into questions, returning them with their count. -/
def decompose_statement_to_questions_openai (remoteGen : String → String)
    (statement : String) : List String × Nat :=
  let result := remoteGen (decompose_prompt statement)
  let questions := parse_questions result
  (questions, questions.length)

/-- `decompose_statement_to_questions_mistral` (`break_statement.py`
lines 128-221): load (or reuse) the local model; if unavailable fall back
to the OpenAI variant; otherwise generate locally and parse.  Returns the
new globals, the `(questions, count)` pair, and the loads performed. -/
def decompose_statement_to_questions_mistral (env : LocalEnv)
    (remoteGen localGen : String → String) (statement : String)
    (st : MistralCache) : MistralCache × (List String × Nat) × Nat :=
  let r := load_mistral_model env st
  match r.2.1 with
  | (some _, some _) =>
    let result := localGen (decompose_prompt statement)
    let questions := parse_questions result
    (r.1, (questions, questions.length), r.2.2)
  | _ =>
    (r.1, decompose_statement_to_questions_openai remoteGen statement, r.2.2)

/- ## checker.py -/

/-- The loop of `check_statement` (`checker.py` lines 16-19), with the
per-question judgment `search_results.yes_no` abstracted as the oracle
`judge`: on the first question judged `"No"` return `False`, otherwise
`True` after the loop. -/
def check_questions (judge : String → String) : List String → Bool
  | [] => true
  | q :: rest => if judge q = "No" then false else check_questions judge rest

/-- `check_statement` (`checker.py` lines 4-19), with its collaborators
`break_statement.decompose_statement_to_questions` and
`search_results.yes_no` abstracted as oracles: decompose unconditionally,
then scan the questions. -/
def check_statement (decompose : String → List String × Nat)
    (judge : String → String) (statement : String) : Bool :=
  check_questions judge (decompose statement).1

/-- The same loop instrumented with the list of questions actually passed
to the Judge (`yes_no` is called exactly once per loop iteration, and the
loop stops at the first `"No"`). -/
def check_questions_trace (judge : String → String) :
    List String → Bool × List String
  | [] => (true, [])
  | q :: rest =>
    if judge q = "No" then (false, [q])
    else
      let r := check_questions_trace judge rest
      (r.1, q :: r.2)

/-- Whole-process interpreter state for a local-backend run: the two
modules' independent global caches. -/
structure ProcState where
  bs_cache : MistralCache
  sr_cache : MistralCache
deriving DecidableEq

def ProcState.empty : ProcState :=
  ⟨MistralCache.empty, MistralCache.empty⟩

/-- The `check_statement` loop with `use_local=True`, threading
`search_results`' globals through the successive `yes_no` calls and
accumulating the model-load count. -/
def check_questions_local (env : LocalEnv) (net : NetResult)
    (remoteGen localGen : String → String) :
    List String → MistralCache → MistralCache × Bool × Nat
  | [], st => (st, true, 0)
  | q :: rest, st =>
    let r := yes_no_mistral env net remoteGen localGen q st
    if r.2.1 = "No" then (r.1, false, r.2.2)
    else
      let r2 := check_questions_local env net remoteGen localGen rest r.1
      (r2.1, r2.2.1, r.2.2 + r2.2.2)

/-- `check_statement(statement, use_local=True)`: decompose via
`break_statement` (its own cache), then judge each question via
`search_results` (its own cache).  Returns the final process state, the
boolean verdict, and the total number of model loads performed. -/
def check_statement_local (env : LocalEnv) (net : NetResult)
    (remoteDecompGen localDecompGen remoteJudgeGen localJudgeGen : String → String)
    (statement : String) (ps : ProcState) : ProcState × Bool × Nat :=
  let d := decompose_statement_to_questions_mistral env remoteDecompGen
    localDecompGen statement ps.bs_cache
  let j := check_questions_local env net remoteJudgeGen localJudgeGen
    d.2.1.1 ps.sr_cache
  (⟨d.1, j.1⟩, j.2.1, d.2.2 + j.2.2)

/- ## main.py -/

/-- `clean_text` (`main.py` lines 53-57). -/
def clean_text (text : String) : String :=
  if text == "" then "" else pyStrip text

/-- `is_empty_statement` (`main.py` lines 60-62). -/
def is_empty_statement (statement : String) : Bool :=
  statement == "" || pyStrip statement == ""

/-- `extract_statement_from_row` (`main.py` lines 83-92).  A row is
modelled by the value of its statement column: `none` when the column is
missing (so `validate_statement_column` fails). -/
def extract_statement_from_row (rowVal : Option String) : Option String :=
  match rowVal with
  | none => none
  | some v =>
    let statement := clean_text v
    if is_empty_statement statement then none else some statement

/-- The per-row body shared by `process_statements_from_csv`
(`main.py` lines 144-157) and `process_statements_from_csv_content`
(lines 180-191): skip empty rows, emit `SKIPPED_SUBJECTIVE` for subjective
statements, and emit the hard-coded verdict `"YES"` otherwise (the
`check_statement` call at lines 153-154 / 187-188 is commented out).  The
`decompose` and `judge` parameters model the backend collaborators
available to the module; the source body never invokes them. -/
def process_statements_from_csv (decompose : String → List String × Nat)
    (judge : String → String) (rows : List (Option String)) :
    List (String × String) :=
  rows.filterMap fun rowVal =>
    (extract_statement_from_row rowVal).map fun statement =>
      if detect_subjectivity statement then (statement, "SKIPPED_SUBJECTIVE")
      else (statement, "YES")

example :
    process_statements_from_csv (fun _ => (["q"], 1)) (fun _ => "No")
      [some "I think it rains", some "  ", some "Paris is in France", none]
    = [("I think it rains", "SKIPPED_SUBJECTIVE"), ("Paris is in France", "YES")] := by
  decide

example : normalize_yes_no "  YES, confirmed" = "Yes" := by decide
example : normalize_yes_no "unsure" = "No" := by decide
example : parse_questions "- Is water wet? \n\n- Is fire hot?" = ["Is water wet?", "Is fire hot?"] := by decide

/- ## Shared lemmas -/

theorem check_questions_false_iff (judge : String → String) (l : List String) :
    check_questions judge l = false ↔ ∃ q ∈ l, judge q = "No" := by
  induction l with
  | nil => simp [check_questions]
  | cons q rest ih =>
    by_cases h : judge q = "No"
    · simp [check_questions, h]
    · simp [check_questions, h, ih]

/- ## Claim theorems -/

/-- C1: `check_statement` returns `false` iff at least one decomposed
question is judged `"No"`, returns `true` if every question is judged
`"Yes"`, and returns `true` when decomposition yields zero questions. -/
theorem claim_c1_aggregation (decompose : String → List String × Nat)
    (judge : String → String) (statement : String) :
    (check_statement decompose judge statement = false ↔
      ∃ q ∈ (decompose statement).1, judge q = "No")
    ∧ ((∀ q ∈ (decompose statement).1, judge q = "Yes") →
      check_statement decompose judge statement = true)
    ∧ ((decompose statement).1 = [] →
      check_statement decompose judge statement = true) := by
  refine ⟨check_questions_false_iff judge _, ?_, ?_⟩
  · intro hall
    cases hb : check_statement decompose judge statement
    · exfalso
      rcases (check_questions_false_iff judge _).1 hb with ⟨q, hq, hno⟩
      rw [hall q hq] at hno
      exact absurd hno (by decide)
    · rfl
  · intro h
    simp [check_statement, h, check_questions]

/-- Witness for C1 at concrete inputs: an all-`"Yes"` judge yields `true`,
and an empty decomposition yields `true`. -/
theorem claim_c1_aggregation_witness :
    check_statement (fun _ => (["Is water wet?"], 1)) (fun _ => "Yes")
      "Water is wet" = true
    ∧ check_statement (fun _ => ([], 0)) (fun _ => "Yes")
      "Water is wet" = true :=
  ⟨(claim_c1_aggregation (fun _ => (["Is water wet?"], 1)) (fun _ => "Yes")
      "Water is wet").2.1 (by intro q _; rfl),
   (claim_c1_aggregation (fun _ => ([], 0)) (fun _ => "Yes")
      "Water is wet").2.2 rfl⟩

/-- C3: once question `i` is judged `"No"` (and no earlier question was),
the Judge is invoked on exactly the first `i+1` questions — questions
`i+1` through `n` are never judged. -/
theorem claim_c3_short_circuit (judge : String → String) (l : List String)
    (i : Nat) (hi : i < l.length)
    (hNo : judge (l.get ⟨i, hi⟩) = "No")
    (hbefore : ∀ q ∈ l.take i, judge q ≠ "No") :
    (check_questions_trace judge l).2 = l.take (i + 1) := by
  induction l generalizing i with
  | nil => exact absurd hi (Nat.not_lt_zero i)
  | cons q rest ih =>
    cases i with
    | zero =>
      have hq : judge q = "No" := by simpa using hNo
      simp [check_questions_trace, hq]
    | succ j =>
      have hq : judge q ≠ "No" := hbefore q (by simp)
      have hi' : j < rest.length := Nat.lt_of_succ_lt_succ hi
      have hNo' : judge (rest.get ⟨j, hi'⟩) = "No" := by simpa using hNo
      have hb' : ∀ p ∈ rest.take j, judge p ≠ "No" := by
        intro p hp
        exact hbefore p (by simp [hp])
      simp [check_questions_trace, hq, ih j hi' hNo' hb']

/-- Witness for C3: with a 3-question decomposition where question 2 is
judged `"No"`, the Judge sees exactly questions 1 and 2. -/
theorem claim_c3_short_circuit_witness :
    (check_questions_trace (fun q => if q = "q2" then "No" else "Yes")
      ["q1", "q2", "q3"]).2 = (["q1", "q2", "q3"] : List String).take 2 :=
  claim_c3_short_circuit (fun q => if q = "q2" then "No" else "Yes")
    ["q1", "q2", "q3"] 1 (by decide) (by decide) (by decide)

/-- C2 (code bug): with collaborators under which `check_statement`
returns `false` on a non-empty, non-subjective statement, the batch
runner still reports verdict `"YES"` — it never calls `check_statement`
(`main.py` lines 153-157 replace the call with a hard-coded verdict,
contradicting the function's own docstring at lines 132-134). -/
theorem claim_c2_hardcoded_yes :
    check_statement (fun _ => (["Is Paris the capital of Germany?"], 1))
      (fun _ => "No") "Paris is the capital of Germany" = false
    ∧ detect_subjectivity "Paris is the capital of Germany" = false
    ∧ process_statements_from_csv
        (fun _ => (["Is Paris the capital of Germany?"], 1)) (fun _ => "No")
        [some "Paris is the capital of Germany"]
      = [("Paris is the capital of Germany", "YES")] :=
  ⟨by decide, by decide, by decide⟩

/-- C4: a row whose extracted statement is classified subjective is
reported with the distinguished verdict `"SKIPPED_SUBJECTIVE"`, and the
result is independent of the decomposition and judgment collaborators
(they are not invoked for that statement). -/
theorem claim_c4_subjective_skipped (rowVal : Option String)
    (statement : String)
    (hx : extract_statement_from_row rowVal = some statement)
    (hs : detect_subjectivity statement = true)
    (d1 d2 : String → List String × Nat) (j1 j2 : String → String) :
    process_statements_from_csv d1 j1 [rowVal]
      = [(statement, "SKIPPED_SUBJECTIVE")]
    ∧ process_statements_from_csv d1 j1 [rowVal]
      = process_statements_from_csv d2 j2 [rowVal] := by
  constructor
  · simp [process_statements_from_csv, hx, hs]
  · rfl

/-- Witness for C4 at the spec's example statement. -/
theorem claim_c4_subjective_skipped_witness :
    process_statements_from_csv (fun _ => (["q"], 1)) (fun _ => "Yes")
      [some "I think the sky is blue"]
      = [("I think the sky is blue", "SKIPPED_SUBJECTIVE")] :=
  (claim_c4_subjective_skipped (some "I think the sky is blue")
    "I think the sky is blue" (by decide) (by decide)
    (fun _ => (["q"], 1)) (fun _ => ([], 0))
    (fun _ => "Yes") (fun _ => "No")).1

/-- C10: `check_statement` is a total function into `Bool` that
unconditionally consults decomposition and judgment — it never consults
the Subjectivity Gate, never rejects empty or whitespace-only input, and
has no Skipped outcome; subjectivity skipping and empty-statement
rejection live only in the batch layer (`main.py`). -/
theorem claim_c10_core_unconditional (decompose : String → List String × Nat)
    (judge : String → String) (statement : String) :
    (check_statement decompose judge statement
      = check_questions judge (decompose statement).1)
    ∧ (check_statement decompose judge statement = true
        ∨ check_statement decompose judge statement = false)
    ∧ check_statement (fun _ => (["Was the statement checked?"], 1))
        (fun _ => "No") "" = false
    ∧ check_statement (fun _ => (["Was the statement checked?"], 1))
        (fun _ => "No") "   " = false
    ∧ check_statement (fun _ => ([], 0)) (fun _ => "No") "" = true
    ∧ detect_subjectivity "I think the sky is blue" = true
    ∧ check_statement (fun _ => (["Is the sky blue?"], 1)) (fun _ => "No")
        "I think the sky is blue" = false
    ∧ extract_statement_from_row (some "   ") = none
    ∧ (∀ v, is_empty_statement (clean_text v) = false →
        detect_subjectivity (clean_text v) = true →
        process_statements_from_csv decompose judge [some v]
          = [(clean_text v, "SKIPPED_SUBJECTIVE")]) := by
  refine ⟨rfl,
    Bool.eq_false_or_eq_true (check_statement decompose judge statement),
    by decide, by decide,
    by decide, by decide, by decide, by decide, ?_⟩
  intro v h1 h2
  simp [process_statements_from_csv, extract_statement_from_row, h1, h2]

/-- Witness for C10: the batch layer skips a subjective statement that
the core itself would happily check. -/
theorem claim_c10_core_unconditional_witness :
    process_statements_from_csv (fun _ => (["q"], 1)) (fun _ => "Yes")
      [some "I believe it will rain"]
      = [(clean_text "I believe it will rain", "SKIPPED_SUBJECTIVE")] :=
  (claim_c10_core_unconditional (fun _ => (["q"], 1)) (fun _ => "Yes")
    "x").2.2.2.2.2.2.2.2 "I believe it will rain" (by decide) (by decide)

/-- Unfolding equation for `normalize_yes_no`. -/
theorem normalize_yes_no_eq (r : String) :
    normalize_yes_no r =
      if (pyLower (pyStrip r)).data.headD ' ' = 'y' then "Yes" else "No" := rfl

/-- The normalization is total: every free-text response maps to `"Yes"`
or `"No"`. -/
theorem normalize_yes_no_total (r : String) :
    normalize_yes_no r = "Yes" ∨ normalize_yes_no r = "No" := by
  rw [normalize_yes_no_eq]
  by_cases h : (pyLower (pyStrip r)).data.headD ' ' = 'y'
  · rw [if_pos h]; exact Or.inl rfl
  · rw [if_neg h]; exact Or.inr rfl

/-- `yes_no_mistral` always produces a normalized judgment. -/
theorem yes_no_mistral_total (env : LocalEnv) (net : NetResult)
    (remoteGen localGen : String → String) (question : String)
    (st : MistralCache) :
    (yes_no_mistral env net remoteGen localGen question st).2.1 = "Yes"
    ∨ (yes_no_mistral env net remoteGen localGen question st).2.1 = "No" := by
  unfold yes_no_mistral
  rcases h : (load_mistral_model env st).2.1 with ⟨m, t⟩
  cases m <;> cases t <;>
    simp [h, yes_no_openai] <;> exact normalize_yes_no_total _

/-- C5: the Judge's normalization yields `"Yes"` iff the response, after
trimming whitespace and lower-casing, begins with the letter `y`; every
other response yields `"No"`; and `yes_no` (with either backend) always
returns exactly one of `"Yes"`, `"No"`.  The same normalization is shared
by `yes_no_openai` and `yes_no_mistral`. -/
theorem claim_c5_judgment_normalization (r : String) (use_local : Bool)
    (env : LocalEnv) (net : NetResult) (remoteGen localGen : String → String)
    (question : String) (st : MistralCache) :
    (normalize_yes_no r = "Yes" ↔ (pyLower (pyStrip r)).data.headD ' ' = 'y')
    ∧ (normalize_yes_no r = "Yes" ∨ normalize_yes_no r = "No")
    ∧ ¬(normalize_yes_no r = "Yes" ∧ normalize_yes_no r = "No")
    ∧ ((yes_no use_local env net remoteGen localGen question st).2.1 = "Yes"
        ∨ (yes_no use_local env net remoteGen localGen question st).2.1 = "No")
    ∧ normalize_yes_no "yes" = "Yes"
    ∧ normalize_yes_no "  Yes." = "Yes"
    ∧ normalize_yes_no "no" = "No"
    ∧ normalize_yes_no "" = "No"
    ∧ normalize_yes_no "unsure" = "No"
    ∧ normalize_yes_no "maybe not" = "No" := by
  refine ⟨?_, normalize_yes_no_total r, ?_, ?_, by decide, by decide,
    by decide, by decide, by decide, by decide⟩
  · rw [normalize_yes_no_eq]
    by_cases h : (pyLower (pyStrip r)).data.headD ' ' = 'y'
    · rw [if_pos h]; exact iff_of_true rfl h
    · rw [if_neg h]; exact iff_of_false (by decide) h
  · rintro ⟨h1, h2⟩
    rw [h1] at h2
    exact absurd h2 (by decide)
  · unfold yes_no
    by_cases h : use_local
    · simp only [h, if_true]
      exact yes_no_mistral_total env net remoteGen localGen question st
    · simp only [h, if_false]
      exact normalize_yes_no_total _

/-- C7: whenever the local model cannot load from a fresh state (missing
directory, missing required files, or a load-time exception), the loader
returns the unavailable sentinel `(none, none)` — it is a total function,
never raising — and both the Judge and the Decomposer return exactly what
the remote backend would have returned, with the same result shape. -/
theorem claim_c7_backend_fallback (env : LocalEnv)
    (h : env.dir_exists = false ∨ env.config_exists = false ∨
         env.tokenizer_file_exists = false ∨ env.tok_raises = true ∨
         env.model_raises = true)
    (net : NetResult)
    (remoteGen localGen remoteDecompGen localDecompGen : String → String)
    (question statement : String) :
    (load_mistral_model env MistralCache.empty).2.1 = (none, none)
    ∧ (yes_no_mistral env net remoteGen localGen question
        MistralCache.empty).2.1
      = yes_no_openai net remoteGen question
    ∧ (decompose_statement_to_questions_mistral env remoteDecompGen
        localDecompGen statement MistralCache.empty).2.1
      = decompose_statement_to_questions_openai remoteDecompGen statement := by
  have hload : (load_mistral_model env MistralCache.empty).2.1 = (none, none) := by
    rcases env with ⟨d, c, t, tr, mr⟩
    cases d <;> cases c <;> cases t <;> cases tr <;> cases mr <;>
      first
        | decide
        | simp at h
  refine ⟨hload, ?_, ?_⟩
  · unfold yes_no_mistral
    simp [hload]
  · unfold decompose_statement_to_questions_mistral
    simp [hload]

/-- Witness for C7: with the model directory missing, the local Judge path
returns the remote Judge's answer. -/
theorem claim_c7_backend_fallback_witness :
    (yes_no_mistral ⟨false, true, true, false, false⟩ (NetResult.err "down")
      (fun _ => "Yes") (fun _ => "Yes") "Is water wet?"
      MistralCache.empty).2.1
    = yes_no_openai (NetResult.err "down") (fun _ => "Yes") "Is water wet?" :=
  (claim_c7_backend_fallback ⟨false, true, true, false, false⟩ (Or.inl rfl)
    (NetResult.err "down") (fun _ => "Yes") (fun _ => "Yes") (fun _ => "q")
    (fun _ => "q") "Is water wet?" "Water is wet").2.1

/- ## Substring lemmas for the prompt contents -/

theorem charListPre_append (p rest : List Char) :
    charListPre p (p ++ rest) = true := by
  induction p with
  | nil => rfl
  | cons c p ih => simp [charListPre, ih]

theorem strContainsAux_of_pre (p s : List Char) (h : charListPre p s = true) :
    strContainsAux p s = true := by
  cases s with
  | nil => simpa [strContainsAux] using h
  | cons c rest => simp [strContainsAux, h]

theorem strContainsAux_append_left (p a s : List Char)
    (h : strContainsAux p s = true) : strContainsAux p (a ++ s) = true := by
  induction a with
  | nil => simpa using h
  | cons c a ih => simp [strContainsAux, ih]

/-- If a string's characters decompose as `a ++ sub ++ b`, the string
contains `sub`. -/
theorem strContains_of_parts (s sub : String) (a b : List Char)
    (h : s.data = a ++ (sub.data ++ b)) : strContains s sub = true := by
  unfold strContains
  rw [h]
  exact strContainsAux_append_left _ _ _
    (strContainsAux_of_pre _ _ (charListPre_append _ _))

/-- The failed-retrieval judgment prompt decomposes around the rendered
`None` sentinel. -/
theorem judge_prompt_none_data (question : String) :
    (judge_prompt none question).data =
      ("\nYou are a precise analyst.\nAnalyze the data below and answer the question strictly with \"Yes\" or \"No\".\n\nData:\n").data
      ++ (("None" : String).data
        ++ ("\n\nQuestion:\n" ++ question ++ "\n\nAnswer (Yes/No only):\n").data) := by
  simp [judge_prompt, pyOptionStr, String.data_append, List.append_assoc]

/-- C8 counterexample: when evidence retrieval fails, the judgment prompt
built by the code does NOT contain the marker text `no evidence
available`; the retrieved-content slot holds Python's `None` rendering
instead. -/
theorem claim_c8_counterexample :
    strContains
      (judge_prompt (tavily_search (NetResult.err "connection timeout"))
        "Is the sky blue?")
      "no evidence available" = false := by
  decide

/-- C8 amended: when evidence retrieval fails (any request exception),
`tavily_search` returns the failure sentinel `None` instead of raising,
and the Judge does not crash: it proceeds to the judgment step with the
rendered sentinel `None` in place of retrieved content and still returns
a Judgment (one of `"Yes"`, `"No"`). -/
theorem claim_c8_retrieval_failure (e question : String)
    (remoteGen : String → String) :
    tavily_search (NetResult.err e) = none
    ∧ strContains
        (judge_prompt (tavily_search (NetResult.err e)) question) "None"
      = true
    ∧ yes_no_openai (NetResult.err e) remoteGen question
        = normalize_yes_no (remoteGen (judge_prompt none question))
    ∧ (yes_no_openai (NetResult.err e) remoteGen question = "Yes"
        ∨ yes_no_openai (NetResult.err e) remoteGen question = "No") := by
  refine ⟨rfl, ?_, rfl, normalize_yes_no_total _⟩
  exact strContains_of_parts _ _ _ _ (judge_prompt_none_data question)

/-- C9 counterexample: one local-backend pipeline run on a fully available
model performs TWO model loads — the decomposition module
(`break_statement.py`) and the judgment module (`search_results.py`) each
load into their own module-level cache — so a second load does happen
after a successful first load. -/
theorem claim_c9_counterexample :
    ¬ ((check_statement_local ⟨true, true, true, false, false⟩
        (NetResult.ok "evidence") (fun _ => "q") (fun _ => "Is water wet?")
        (fun _ => "No") (fun _ => "Yes") "Water is wet"
        ProcState.empty).2.2 ≤ 1)
    ∧ (check_statement_local ⟨true, true, true, false, false⟩
        (NetResult.ok "evidence") (fun _ => "q") (fun _ => "Is water wet?")
        (fun _ => "No") (fun _ => "Yes") "Water is wet"
        ProcState.empty).2.2 = 2
    ∧ (check_statement_local ⟨true, true, true, false, false⟩
        (NetResult.ok "evidence") (fun _ => "q") (fun _ => "Is water wet?")
        (fun _ => "No") (fun _ => "Yes") "Water is wet"
        ProcState.empty).1.bs_cache.model.isSome = true
    ∧ (check_statement_local ⟨true, true, true, false, false⟩
        (NetResult.ok "evidence") (fun _ => "q") (fun _ => "Is water wet?")
        (fun _ => "No") (fun _ => "Yes") "Water is wet"
        ProcState.empty).1.sr_cache.model.isSome = true := by
  refine ⟨by decide, by decide, by decide, by decide⟩

/-- C9 amended: each module's `load_mistral_model` caches in that module's
own globals, so WITHIN a module the expensive load happens at most once:
after a call whose load succeeded, a further call in the same module
performs zero loads and returns the identical cached handles and state. -/
theorem claim_c9_per_module_cache (env : LocalEnv) (st : MistralCache)
    (h : ((load_mistral_model env st).2.1.1).isSome = true ∧
         ((load_mistral_model env st).2.1.2).isSome = true) :
    (load_mistral_model env ((load_mistral_model env st).1)).2.2 = 0
    ∧ (load_mistral_model env ((load_mistral_model env st).1)).2.1
        = (load_mistral_model env st).2.1
    ∧ (load_mistral_model env ((load_mistral_model env st).1)).1
        = (load_mistral_model env st).1 := by
  rcases st with ⟨m, tk⟩
  rcases env with ⟨d, c, t, tr, mr⟩
  cases m <;> cases tk <;> cases d <;> cases c <;> cases t <;>
    cases tr <;> cases mr <;>
    simp_all [load_mistral_model, mistral_path]

/-- Witness for C9 amended: after a successful fresh load, a second call
performs no load. -/
theorem claim_c9_per_module_cache_witness :
    (load_mistral_model ⟨true, true, true, false, false⟩
      ((load_mistral_model ⟨true, true, true, false, false⟩
        MistralCache.empty).1)).2.2 = 0 :=
  (claim_c9_per_module_cache ⟨true, true, true, false, false⟩
    MistralCache.empty (by decide)).1

/- ## Lemmas for the Subjectivity Gate -/

/-- Every alternation branch starts with a lowercase ASCII letter. -/
def headLowerAlpha (ph : String) : Bool :=
  match ph.data with
  | [] => false
  | c :: _ => 97 ≤ c.toNat && c.toNat ≤ 122

theorem patterns_head_letter :
    ∀ pat ∈ get_subjective_patterns, ∀ ph ∈ pat, headLowerAlpha ph = true := by
  decide

theorem isPySpace_le (c : Char) (h : isPySpace c = true) : c.toNat ≤ 32 := by
  unfold isPySpace at h
  simp only [Bool.or_eq_true, beq_iff_eq] at h
  rcases h with ((((h | h) | h) | h) | h) | h <;> omega

theorem lowerChar_of_le (c : Char) (h : c.toNat ≤ 32) : lowerChar c = c := by
  unfold lowerChar
  rw [if_neg]
  simp
  omega

/-- A phrase beginning with a lowercase letter cannot match at a position
whose characters are all whitespace. -/
theorem matchPhraseAt_space_none (s : List Char) (d : Char) (p : List Char)
    (hs : ∀ c ∈ s, isPySpace c = true)
    (hd : 97 ≤ d.toNat ∧ d.toNat ≤ 122) :
    matchPhraseAt s (d :: p) = none := by
  cases s with
  | nil => rfl
  | cons c s' =>
    have hc : c.toNat ≤ 32 := isPySpace_le c (hs c (by simp))
    have hne : ¬ (lowerChar c = lowerChar d) := by
      intro heq
      have h1 : lowerChar c = c := lowerChar_of_le c hc
      have h2 : lowerChar d = d := by
        unfold lowerChar
        rw [if_neg]
        simp
        omega
      rw [h1, h2] at heq
      have := congrArg Char.toNat heq
      omega
    simp [matchPhraseAt, hne]

theorem wbSearchAux_space_false (d : Char) (p : List Char)
    (hd : 97 ≤ d.toNat ∧ d.toNat ≤ 122) (s : List Char)
    (hs : ∀ c ∈ s, isPySpace c = true) (prev : Option Char) :
    wbSearchAux (d :: p) prev s = false := by
  induction s generalizing prev with
  | nil => simp [wbSearchAux, wbMatchAt, matchPhraseAt]
  | cons c rest ih =>
    have h1 : matchPhraseAt (c :: rest) (d :: p) = none :=
      matchPhraseAt_space_none _ d p hs hd
    have h2 : ∀ x ∈ rest, isPySpace x = true := fun x hx => hs x (by simp [hx])
    simp [wbSearchAux, wbMatchAt, h1, ih h2]

theorem re_word_search_space_false (ph : String)
    (hph : headLowerAlpha ph = true) (s : String)
    (hs : ∀ c ∈ s.data, isPySpace c = true) :
    re_word_search ph s = false := by
  unfold re_word_search
  unfold headLowerAlpha at hph
  rcases hd : ph.data with _ | ⟨d, p⟩
  · rw [hd] at hph
    exact absurd hph (by decide)
  · rw [hd] at hph
    simp at hph
    exact wbSearchAux_space_false d p hph s.data hs none

theorem pySplitAux_space_nil (l : List Char)
    (h : ∀ c ∈ l, isPySpace c = true) : pySplitAux l [] = [] := by
  induction l with
  | nil => rfl
  | cons c rest ih =>
    have hc : isPySpace c = true := h c (by simp)
    simp [pySplitAux, hc]
    exact ih (fun x hx => h x (by simp [hx]))

theorem pyLower_space (s : String) (hs : ∀ c ∈ s.data, isPySpace c = true) :
    ∀ c ∈ (pyLower s).data, isPySpace c = true := by
  intro c hc
  unfold pyLower at hc
  simp at hc
  rcases hc with ⟨x, hx, rfl⟩
  rw [lowerChar_of_le x (isPySpace_le x (hs x hx))]
  exact hs x hx

theorem stripList_eq_nil (p : Char → Bool) (l : List Char)
    (h : stripList p l = []) : ∀ c ∈ l, p c = true := by
  unfold stripList at h
  have h0 : (l.dropWhile p).reverse.dropWhile p = [] := by
    have := congrArg List.reverse h
    simpa using this
  have h2 : ∀ c ∈ (l.dropWhile p).reverse, p c := List.dropWhile_eq_nil_iff.mp h0
  have h3 : ∀ c ∈ l.dropWhile p, p c = true := by
    intro c hc
    exact h2 c (by simpa using hc)
  intro c hc
  have hsplit : c ∈ l.takeWhile p ++ l.dropWhile p := by
    rw [List.takeWhile_append_dropWhile]
    exact hc
  rcases List.mem_append.mp hsplit with h4 | h4
  · exact List.mem_takeWhile_imp h4
  · exact h3 c h4

theorem is_empty_statement_space (s : String)
    (h : is_empty_statement s = true) :
    s = "" ∨ ∀ c ∈ s.data, isPySpace c = true := by
  unfold is_empty_statement at h
  simp at h
  rcases h with h | h
  · exact Or.inl h
  · right
    have h2 : stripList isPySpace s.data = [] := congrArg String.data h
    exact stripList_eq_nil _ _ h2

/-- An empty or whitespace-only statement is never subjective. -/
theorem detect_subjectivity_empty (s : String)
    (h : is_empty_statement s = true) : detect_subjectivity s = false := by
  rcases is_empty_statement_space s h with rfl | hsp
  · rfl
  · by_cases he : s = ""
    · subst he; rfl
    · unfold detect_subjectivity
      rw [if_neg (by simpa using he)]
      have hA : (get_subjective_patterns.any fun pat => pattern_search pat s)
          = false := by
        rw [Bool.eq_false_iff]
        intro hany
        rw [List.any_eq_true] at hany
        rcases hany with ⟨pat, hpat, hps⟩
        rw [pattern_search, List.any_eq_true] at hps
        rcases hps with ⟨ph, hph, hw⟩
        rw [re_word_search_space_false ph
          (patterns_head_letter pat hpat ph hph) s hsp] at hw
        exact absurd hw (by decide)
      have hB : pySplit (pyLower s) = [] :=
        pySplitAux_space_nil _ (pyLower_space s hsp)
      rw [hA, hB]
      rfl

/-- C6: `detect_subjectivity` returns `true` iff some fixed regex pattern
matches (case-insensitively, unanchored, with word boundaries) or some
whitespace-delimited lowercase token equals a fixed opinion word; an empty
or whitespace-only statement is never subjective. -/
theorem claim_c6_subjectivity (s : String) :
    (detect_subjectivity s = true ↔
      ((∃ pat ∈ get_subjective_patterns, ∃ ph ∈ pat, re_word_search ph s = true)
        ∨ (∃ w ∈ pySplit (pyLower s), w ∈ get_opinion_words)))
    ∧ (is_empty_statement s = true → detect_subjectivity s = false) := by
  refine ⟨?_, detect_subjectivity_empty s⟩
  by_cases he : s = ""
  · subst he
    decide
  · unfold detect_subjectivity
    rw [if_neg (by simpa using he)]
    simp [pattern_search, List.any_eq_true]

/-- Witness for C6: a whitespace-only (hence empty-per-`strip`) statement
is not subjective. -/
theorem claim_c6_subjectivity_witness :
    detect_subjectivity "   " = false :=
  (claim_c6_subjectivity "   ").2 (by decide)

/-- Witness for C5 at a concrete ambiguous response. -/
theorem claim_c5_judgment_normalization_witness :
    normalize_yes_no "unsure" = "No" :=
  (claim_c5_judgment_normalization "unsure" false
    ⟨false, false, false, false, false⟩ (NetResult.ok "") (fun _ => "")
    (fun _ => "") "" MistralCache.empty).2.2.2.2.2.2.2.2.1
